import Mathlib

/-!
Verification of the Movies backend (FastAPI handlers in `backend/main.py`,
request shapes in `backend/models.py`, sqlite schema in `backend/database.py`).

The sqlite store is embedded as an explicit state (`DB`): two tables as lists of
rows plus the AUTOINCREMENT counters.  Each HTTP handler becomes a function from
its arguments and a `DB` to a result (`Except Err _`) paired with the successor
`DB`; an uncommitted connection close leaves the state unchanged, which the
functions reflect by returning the input `DB` on the failure paths.

The `auth` module is imported by `main.py` but its source is not in the
repository snapshot; its operations (`create_access_token`,
`decode_access_token`, `verify_password`, `get_password_hash`) are modelled
from the spec, either as abstract function parameters or as the minimal
claim-carrying record the spec describes.
-/

namespace MoviesApi

/-- State of one JSON field in a request body: absent from the body, present
with an explicit null, or present with a value.  pydantic distinguishes the
three via `model_dump(exclude_unset=True)`. -/
inductive Field (α : Type) where
  | absent : Field α
  | null : Field α
  | val : α → Field α
deriving DecidableEq

/-- Row of the `users` table (`database.py`, `init_db`).  The `created_at`
column is never read by any handler and is omitted. -/
structure UserRow where
  id : Nat
  username : String
  hashed_password : String
deriving DecidableEq

/-- Row of the `movies` table (`database.py`, `init_db`).  `title` is declared
NOT NULL; every other data column is nullable.  `rating REAL` is modelled as a
rational number: the handlers only store and return ratings, never compute
with them.  The unread `created_at` column is omitted. -/
structure MovieRow where
  id : Nat
  title : String
  director : Option String
  year : Option Int
  genre : Option String
  rating : Option Rat
  description : Option String
  user_id : Nat
deriving DecidableEq

/-- The sqlite database: the two tables plus the AUTOINCREMENT counters that
assign fresh primary keys. -/
structure DB where
  users : List UserRow
  movies : List MovieRow
  nextUserId : Nat
  nextMovieId : Nat
deriving DecidableEq

/-- The authenticated identity that `get_current_user` hands to every
protected handler (class `User` of the `auth` module, as constructed in
`main.py` from the `users` row). -/
structure User where
  id : Nat
  username : String
deriving DecidableEq

/-- Claims recovered from a bearer token (`token_data.username` may be null,
checked in `get_current_user`). -/
structure TokenData where
  username : Option String
deriving DecidableEq

/-- Modelled from the spec: `create_token(claims, ttl)` of the missing `auth`
module produces a signed credential embedding at least the username claim;
`main.py` passes `data={"sub": username}`.  Expiry and signature checking are
abstracted into the token decoder. -/
structure AccessToken where
  sub : String
deriving DecidableEq

def create_access_token (sub : String) : AccessToken := ⟨sub⟩

/-- Response body of `register` and `login`: the minted credential plus the
literal token type `"bearer"`. -/
structure Token where
  access_token : AccessToken
  token_type : String
deriving DecidableEq

/-- Failures surfaced by an operation: `HTTPException(status, detail)`;
FastAPI request-validation rejection (a 422 response produced before the
handler runs); an unhandled storage exception escaping the handler. -/
inductive Err where
  | httpError : Nat → String → Err
  | validationError : String → Err
  | storageFault : String → Err
deriving DecidableEq

instance {ε α : Type} [DecidableEq ε] [DecidableEq α] : DecidableEq (Except ε α) := fun a b =>
  match a, b with
  | .error e1, .error e2 =>
    if h : e1 = e2 then isTrue (by rw [h]) else isFalse (by intro hc; cases hc; exact h rfl)
  | .error _, .ok _ => isFalse (by intro hc; cases hc)
  | .ok _, .error _ => isFalse (by intro hc; cases hc)
  | .ok v1, .ok v2 =>
    if h : v1 = v2 then isTrue (by rw [h]) else isFalse (by intro hc; cases hc; exact h rfl)

/-- models.MovieCreate after successful pydantic validation: `title : str` is
required, the remaining fields are optional and individually nullable. -/
structure MovieCreate where
  title : String
  director : Option String
  year : Option Int
  genre : Option String
  rating : Option Rat
  description : Option String
deriving DecidableEq

/-- models.MovieUpdate: every field optional, with absence distinguishable
from explicit null. -/
structure MovieUpdate where
  title : Field String
  director : Field String
  year : Field Int
  genre : Field String
  rating : Field Rat
  description : Field String
deriving DecidableEq

/-- Raw JSON body sent to the create endpoint, before pydantic validation. -/
structure RawMovieCreate where
  title : Field String
  director : Field String
  year : Field Int
  genre : Field String
  rating : Field Rat
  description : Field String
deriving DecidableEq

/-- pydantic reading of an `Optional[...] = None` field: absent and null both
become `None`. -/
def parseField {α : Type} : Field α → Option α
  | .absent => none
  | .null => none
  | .val v => some v

/-- pydantic validation of `MovieCreate`: `title : str` must be present and
non-null (either failure is a 422 request-validation rejection); every other
field may be absent or null. -/
def parseMovieCreate (raw : RawMovieCreate) : Except Err MovieCreate :=
  match raw.title with
  | .absent => .error (.validationError "title: Field required")
  | .null => .error (.validationError "title: Input should be a valid string")
  | .val t =>
      .ok ⟨t, parseField raw.director, parseField raw.year, parseField raw.genre,
        parseField raw.rating, parseField raw.description⟩

/-- pydantic validation of `MovieUpdate` never rejects a body whose fields are
absent, null, or correctly typed: there is no required field. -/
def parseMovieUpdate (mu : MovieUpdate) : Except Err MovieUpdate := .ok mu

/-- One `key = ?` item of the generated `UPDATE ... SET` clause together with
the value bound to its placeholder. -/
inductive SetField where
  | title : Option String → SetField
  | director : Option String → SetField
  | year : Option Int → SetField
  | genre : Option String → SetField
  | rating : Option Rat → SetField
  | description : Option String → SetField
deriving DecidableEq

/-- Contribution of one pydantic field to `model_dump(exclude_unset=True)`: an
absent field is excluded, a field set to null or to a value is included. -/
def fieldPart {α : Type} (mk : Option α → SetField) : Field α → List SetField
  | .absent => []
  | .null => [mk none]
  | .val v => [mk (some v)]

/-- The dictionary `movie_update.model_dump(exclude_unset=True)`, in pydantic
field declaration order (the order the SET clause is generated in). -/
def MovieUpdate.presentFields (mu : MovieUpdate) : List SetField :=
  fieldPart .title mu.title ++ fieldPart .director mu.director ++
    fieldPart .year mu.year ++ fieldPart .genre mu.genre ++
    fieldPart .rating mu.rating ++ fieldPart .description mu.description

/-- Effect of one SET item on a row.  `movies.title` is NOT NULL, so binding
NULL to `title` aborts the statement with an sqlite IntegrityError; every
other assignment succeeds. -/
def applySet (r : MovieRow) : SetField → Except String MovieRow
  | .title none => .error "NOT NULL constraint failed: movies.title"
  | .title (some v) => .ok { r with title := v }
  | .director v => .ok { r with director := v }
  | .year v => .ok { r with year := v }
  | .genre v => .ok { r with genre := v }
  | .rating v => .ok { r with rating := v }
  | .description v => .ok { r with description := v }

/-- Effect of the whole SET clause on one row, item by item; the first
constraint failure aborts. -/
def applyFields : List SetField → MovieRow → Except String MovieRow
  | [], r => .ok r
  | f :: fs, r =>
    match applySet r f with
    | .error e => .error e
    | .ok r2 => applyFields fs r2

/-- `UPDATE movies SET ... WHERE id = ? AND user_id = ?`: every matching row
is rewritten; a constraint failure aborts the whole statement, leaving the
table as it was. -/
def updateRows (fields : List SetField) (movie_id uid : Nat) :
    List MovieRow → Except String (List MovieRow)
  | [] => .ok []
  | r :: rest =>
    match (if r.id == movie_id && r.user_id == uid then applyFields fields r else .ok r) with
    | .error e => .error e
    | .ok r2 =>
      match updateRows fields movie_id uid rest with
      | .error e => .error e
      | .ok rest2 => .ok (r2 :: rest2)

/-- GET /api/movies: `SELECT ... FROM movies WHERE user_id = ?`. -/
def get_movies (current_user : User) (db : DB) : Except Err (List MovieRow) × DB :=
  (.ok (db.movies.filter (fun r => r.user_id == current_user.id)), db)

/-- POST /api/movies: INSERT the submitted fields with `user_id` set to the
caller and a fresh AUTOINCREMENT id; the response is built from the submitted
values plus `cursor.lastrowid`, not re-read from the store. -/
def create_movie (movie : MovieCreate) (current_user : User) (db : DB) :
    Except Err MovieRow × DB :=
  let row : MovieRow := ⟨db.nextMovieId, movie.title, movie.director, movie.year,
    movie.genre, movie.rating, movie.description, current_user.id⟩
  (.ok row, { db with movies := db.movies ++ [row], nextMovieId := db.nextMovieId + 1 })

/-- The create endpoint as reached over HTTP: pydantic validation of the raw
body happens before the handler body runs. -/
def create_movie_endpoint (raw : RawMovieCreate) (current_user : User) (db : DB) :
    Except Err MovieRow × DB :=
  match parseMovieCreate raw with
  | .error e => (.error e, db)
  | .ok m => create_movie m current_user db

/-- GET /api/movies/{id}: `SELECT ... WHERE id = ? AND user_id = ?`; an empty
result is a 404 regardless of why the predicate failed. -/
def get_movie (movie_id : Nat) (current_user : User) (db : DB) : Except Err MovieRow × DB :=
  match db.movies.find? (fun r => r.id == movie_id && r.user_id == current_user.id) with
  | none => (.error (.httpError 404 "Movie not found"), db)
  | some r => (.ok r, db)

/-- PUT /api/movies/{id}: ownership probe with the combined predicate, then an
UPDATE built from only the present fields (skipped entirely when no field is
present), then a re-read of the row by id. -/
def update_movie (movie_id : Nat) (movie_update : MovieUpdate) (current_user : User)
    (db : DB) : Except Err MovieRow × DB :=
  match db.movies.find? (fun r => r.id == movie_id && r.user_id == current_user.id) with
  | none => (.error (.httpError 404 "Movie not found"), db)
  | some _ =>
    let fields := movie_update.presentFields
    let step : Except String (List MovieRow) :=
      if fields.isEmpty then .ok db.movies
      else updateRows fields movie_id current_user.id db.movies
    match step with
    | .error msg => (.error (.storageFault msg), db)
    | .ok movies2 =>
      match movies2.find? (fun r => r.id == movie_id) with
      | none => (.error (.storageFault "NoneType after update"), { db with movies := movies2 })
      | some r => (.ok r, { db with movies := movies2 })

/-- DELETE /api/movies/{id}: `DELETE ... WHERE id = ? AND user_id = ?`; a zero
rowcount is reported as 404 and nothing is committed. -/
def delete_movie (movie_id : Nat) (current_user : User) (db : DB) : Except Err Unit × DB :=
  let remaining := db.movies.filter (fun r => !(r.id == movie_id && r.user_id == current_user.id))
  if remaining.length == db.movies.length then (.error (.httpError 404 "Movie not found"), db)
  else (.ok (), { db with movies := remaining })

/-- POST /api/register: duplicate-handle probe, INSERT with the hash of the
password (`get_password_hash` of the missing `auth` module is an abstract
parameter), then auto-login by minting a token for the handle. -/
def register (hash : String → String) (username password : String) (db : DB) :
    Except Err Token × DB :=
  match db.users.find? (fun u => u.username == username) with
  | some _ => (.error (.httpError 400 "Username already registered"), db)
  | none =>
    let row : UserRow := ⟨db.nextUserId, username, hash password⟩
    (.ok ⟨create_access_token username, "bearer"⟩,
      { db with users := db.users ++ [row], nextUserId := db.nextUserId + 1 })

/-- POST /api/login: `verify_password` of the missing `auth` module is an
abstract parameter; an unknown handle and a failed verification raise the one
identical 401. -/
def login (verify : String → String → Bool) (username password : String) (db : DB) :
    Except Err Token × DB :=
  match db.users.find? (fun u => u.username == username) with
  | none => (.error (.httpError 401 "Incorrect username or password"), db)
  | some row =>
    if verify password row.hashed_password then
      (.ok ⟨create_access_token username, "bearer"⟩, db)
    else (.error (.httpError 401 "Incorrect username or password"), db)

/-- One storage access, for tracing when the tables are touched. -/
inductive StorageOp where
  | readUsers : StorageOp
  | readMovies : StorageOp
  | writeUsers : StorageOp
  | writeMovies : StorageOp
deriving DecidableEq

/-- The dependency resolving the caller identity.  `decode` stands for
`decode_access_token` of the missing `auth` module, modelled from the spec: it
returns the embedded claims, or the `none` sentinel on any verification
failure (malformed, expired, signature mismatch).  A missing credential is
rejected by the security scheme, modelled from the spec as the same
Unauthorized class.  The trace records which tables were touched: none before
the token is accepted. -/
def get_current_user (decode : String → Option TokenData) (cred : Option String)
    (db : DB) : Except Err User × List StorageOp :=
  match cred with
  | none => (.error (.httpError 401 "Not authenticated"), [])
  | some token =>
    match decode token with
    | none => (.error (.httpError 401 "Invalid authentication credentials"), [])
    | some td =>
      match td.username with
      | none => (.error (.httpError 401 "Invalid authentication credentials"), [])
      | some un =>
        match db.users.find? (fun u => u.username == un) with
        | none => (.error (.httpError 404 "User not found"), [.readUsers])
        | some urow => (.ok ⟨urow.id, urow.username⟩, [.readUsers])

/-- A protected endpoint: the identity dependency runs first, and the handler
body (with its own storage trace) runs only when it succeeds. -/
def run_protected {α : Type} (handler : User → DB → Except Err α × DB × List StorageOp)
    (decode : String → Option TokenData) (cred : Option String) (db : DB) :
    Except Err α × DB × List StorageOp :=
  match get_current_user decode cred db with
  | (.error e, t) => (.error e, db, t)
  | (.ok u, t) =>
    match handler u db with
    | (r, db2, t2) => (r, db2, t ++ t2)

/-- Total description of one SET item on the non-aborting path; wherever this
stands for `applySet`, the aborting `title = NULL` item is excluded by
hypothesis. -/
def applyField (f : SetField) (r : MovieRow) : MovieRow :=
  match f with
  | .title none => r
  | .title (some v) => { r with title := v }
  | .director v => { r with director := v }
  | .year v => { r with year := v }
  | .genre v => { r with genre := v }
  | .rating v => { r with rating := v }
  | .description v => { r with description := v }

/-- Total description of the whole SET clause on the non-aborting path. -/
def applyList : List SetField → MovieRow → MovieRow
  | [], r => r
  | f :: fs, r => applyList fs (applyField f r)

/-- New value of an optional column after the SET clause, given the request
state of its field and its old value. -/
def updOpt {α : Type} : Field α → Option α → Option α
  | .absent, o => o
  | .null, _ => none
  | .val v, _ => some v

/-- New value of the `title` column after a SET clause that did not abort. -/
def updTitle : Field String → String → String
  | .val v, _ => v
  | .absent, t => t
  | .null, t => t

/-- Fixture: a first registered user. -/
def alice : User := ⟨1, "alice"⟩

/-- Fixture: a second registered user. -/
def bob : User := ⟨2, "bob"⟩

/-- Fixture: a movie owned by the first user. -/
def movieDune : MovieRow := ⟨1, "Dune", none, none, none, none, none, 1⟩

/-- Fixture: a store holding both users and the first user's movie. -/
def db1 : DB := ⟨[⟨1, "alice", "h1"⟩, ⟨2, "bob", "h2"⟩], [movieDune], 3, 2⟩

/-- Fixture: a store holding one user and no movies. -/
def db0 : DB := ⟨[⟨1, "alice", "h1"⟩], [], 2, 1⟩

/-- Fixture: an update body setting only the rating. -/
def muRating : MovieUpdate := ⟨.absent, .absent, .absent, .absent, .val (9 : Rat), .absent⟩

/-- Fixture: an update body carrying an explicit null title. -/
def muTitleNull : MovieUpdate := ⟨.null, .absent, .absent, .absent, .absent, .absent⟩

/-- Fixture: an update body carrying no field at all. -/
def muNothing : MovieUpdate := ⟨.absent, .absent, .absent, .absent, .absent, .absent⟩

/-- Fixture: a create body whose title is the empty string and whose other
fields are absent. -/
def rawEmptyTitle : RawMovieCreate := ⟨.val "", .absent, .absent, .absent, .absent, .absent⟩

/-- Fixture: a create body with no title and a mix of null and absent other
fields. -/
def rawNoTitle : RawMovieCreate := ⟨.absent, .null, .absent, .null, .absent, .null⟩

/-- Fixture: a create body with a title and every other field null or absent. -/
def rawTitleOnly : RawMovieCreate := ⟨.val "Alien", .null, .absent, .null, .absent, .null⟩

/-- Fixture: a create body with all six fields supplied. -/
def movieFull : MovieCreate :=
  ⟨"Dune", some "Villeneuve", some 2021, some "SciFi", some (8 : Rat), some "Arrakis"⟩

/-- Fixture: a decoder accepting no token, standing for an expired or
tampered credential. -/
def decodeNone : String → Option TokenData := fun _ => none

/-- Fixture: the list handler wrapped with its storage trace, for running
under `run_protected`. -/
def tracedList : User → DB → Except Err (List MovieRow) × DB × List StorageOp :=
  fun u db => ((get_movies u db).1, (get_movies u db).2, [.readMovies])

/-! ### Helper lemmas -/

lemma applySet_eq_ok (f : SetField) (r : MovieRow) (h : f ≠ .title none) :
    applySet r f = .ok (applyField f r) := by
  cases f with
  | title v =>
    cases v with
    | none => exact absurd rfl h
    | some s => rfl
  | director v => rfl
  | year v => rfl
  | genre v => rfl
  | rating v => rfl
  | description v => rfl

lemma applySet_id_user (f : SetField) (r r2 : MovieRow) (h : applySet r f = .ok r2) :
    r2.id = r.id ∧ r2.user_id = r.user_id := by
  cases f with
  | title v =>
    cases v with
    | none => simp [applySet] at h
    | some s => simp [applySet] at h; subst h; exact ⟨rfl, rfl⟩
  | director v => simp [applySet] at h; subst h; exact ⟨rfl, rfl⟩
  | year v => simp [applySet] at h; subst h; exact ⟨rfl, rfl⟩
  | genre v => simp [applySet] at h; subst h; exact ⟨rfl, rfl⟩
  | rating v => simp [applySet] at h; subst h; exact ⟨rfl, rfl⟩
  | description v => simp [applySet] at h; subst h; exact ⟨rfl, rfl⟩

lemma applyFields_eq_ok (fs : List SetField) (r : MovieRow)
    (h : SetField.title none ∉ fs) : applyFields fs r = .ok (applyList fs r) := by
  induction fs generalizing r with
  | nil => rfl
  | cons f fs ih =>
    have hf : f ≠ .title none := fun he => h (he ▸ List.mem_cons_self f fs)
    rw [applyFields, applySet_eq_ok f r hf]
    exact ih (applyField f r) (fun hm => h (List.mem_cons_of_mem f hm))

lemma applyFields_id_user (fs : List SetField) (r r2 : MovieRow)
    (h : applyFields fs r = .ok r2) : r2.id = r.id ∧ r2.user_id = r.user_id := by
  induction fs generalizing r with
  | nil => simp [applyFields] at h; subst h; exact ⟨rfl, rfl⟩
  | cons f fs ih =>
    rw [applyFields] at h
    cases hs : applySet r f with
    | error e => rw [hs] at h; cases h
    | ok y =>
      rw [hs] at h
      obtain ⟨h1, h2⟩ := applySet_id_user f r y hs
      obtain ⟨h3, h4⟩ := ih y h
      exact ⟨h1 ▸ h3, h2 ▸ h4⟩

lemma applyFields_titleNull (fs : List SetField) (r : MovieRow) :
    applyFields (SetField.title none :: fs) r =
      .error "NOT NULL constraint failed: movies.title" := rfl

lemma applyList_presentFields (mu : MovieUpdate) (r : MovieRow) :
    applyList mu.presentFields r =
      ⟨r.id, updTitle mu.title r.title, updOpt mu.director r.director,
        updOpt mu.year r.year, updOpt mu.genre r.genre, updOpt mu.rating r.rating,
        updOpt mu.description r.description, r.user_id⟩ := by
  rcases mu with ⟨t, d, y, g, ra, de⟩
  cases t <;> cases d <;> cases y <;> cases g <;> cases ra <;> cases de <;> rfl

lemma titleNone_not_mem_presentFields (mu : MovieUpdate) (h : mu.title ≠ Field.null) :
    SetField.title none ∉ mu.presentFields := by
  intro hm
  rcases mu with ⟨t, d, y, g, ra, de⟩
  simp only [MovieUpdate.presentFields, List.mem_append] at hm
  rcases hm with ((((hm | hm) | hm) | hm) | hm) | hm
  · cases t with
    | absent => simp [fieldPart] at hm
    | null => exact h rfl
    | val v => simp [fieldPart] at hm
  · cases d <;> simp [fieldPart] at hm
  · cases y <;> simp [fieldPart] at hm
  · cases g <;> simp [fieldPart] at hm
  · cases ra <;> simp [fieldPart] at hm
  · cases de <;> simp [fieldPart] at hm

lemma find?_eq_some_unique {α : Type} {p : α → Bool} {l : List α} {r : α}
    (hr : r ∈ l) (hpr : p r = true) (huniq : ∀ x ∈ l, p x = true → x = r) :
    l.find? p = some r := by
  induction l with
  | nil => cases hr
  | cons x xs ih =>
    by_cases hx : p x = true
    · have hxr : x = r := huniq x (List.mem_cons_self x xs) hx
      subst hxr
      simp [List.find?_cons_of_pos, hx]
    · rw [List.find?_cons_of_neg _ (by simpa using hx)]
      have hr2 : r ∈ xs := by
        rcases List.mem_cons.mp hr with he | he
        · exact absurd (he ▸ hpr) hx
        · exact he
      exact ih hr2 (fun y hy hpy => huniq y (List.mem_cons_of_mem x hy) hpy)

lemma row_eq_of_id_eq {l : List MovieRow} (hnd : (l.map MovieRow.id).Nodup)
    {r x : MovieRow} (hr : r ∈ l) (hx : x ∈ l) (h : x.id = r.id) : x = r :=
  List.inj_on_of_nodup_map hnd hx hr h

lemma find?_owned {db : DB} {r : MovieRow} {u : User}
    (hnd : (db.movies.map MovieRow.id).Nodup) (hr : r ∈ db.movies)
    (hown : r.user_id = u.id) :
    db.movies.find? (fun x => x.id == r.id && x.user_id == u.id) = some r := by
  apply find?_eq_some_unique hr
  · simp [hown]
  · intro x hx hpx
    simp only [Bool.and_eq_true, beq_iff_eq] at hpx
    exact row_eq_of_id_eq hnd hr hx hpx.1

lemma updateRows_eq_map (fields : List SetField) (mid uid : Nat) (l : List MovieRow)
    (h : SetField.title none ∉ fields) :
    updateRows fields mid uid l =
      .ok (l.map (fun r => if r.id == mid && r.user_id == uid then applyList fields r else r)) := by
  induction l with
  | nil => rfl
  | cons x xs ih =>
    rw [updateRows]
    by_cases hx : (x.id == mid && x.user_id == uid) = true
    · have hx2 : x.id = mid ∧ x.user_id = uid := by simpa using hx
      simp [hx, applyFields_eq_ok fields x h, ih, hx2.1, hx2.2]
    · have hx2 : ¬(x.id = mid ∧ x.user_id = uid) := fun hc => hx (by simp [hc.1, hc.2])
      simp [hx, ih]
      rw [if_neg hx2]

lemma updateRows_titleNull (fs : List SetField) (mid uid : Nat) (l : List MovieRow)
    (r : MovieRow) (hr : r ∈ l) (hpr : (r.id == mid && r.user_id == uid) = true) :
    updateRows (SetField.title none :: fs) mid uid l =
      .error "NOT NULL constraint failed: movies.title" := by
  induction l with
  | nil => cases hr
  | cons x xs ih =>
    rw [updateRows]
    by_cases hx : (x.id == mid && x.user_id == uid) = true
    · simp [hx, applyFields_titleNull]
    · have hr2 : r ∈ xs := by
        rcases List.mem_cons.mp hr with he | he
        · exact absurd (he ▸ hpr) hx
        · exact he
      simp [hx, ih hr2]

lemma no_match_of_foreign {db : DB} {r : MovieRow} {b : User}
    (hnd : (db.movies.map MovieRow.id).Nodup) (hr : r ∈ db.movies)
    (hforeign : r.user_id ≠ b.id) :
    ∀ x ∈ db.movies, ¬(x.id = r.id ∧ x.user_id = b.id) := by
  intro x hx ⟨h1, h2⟩
  exact hforeign ((row_eq_of_id_eq hnd hr hx h1) ▸ h2)

lemma get_movie_404 {mid : Nat} {u : User} {db : DB}
    (h : ∀ x ∈ db.movies, ¬(x.id = mid ∧ x.user_id = u.id)) :
    get_movie mid u db = (.error (.httpError 404 "Movie not found"), db) := by
  have hf : db.movies.find? (fun x => x.id == mid && x.user_id == u.id) = none := by
    apply List.find?_eq_none.mpr
    intro x hx hpx
    simp only [Bool.and_eq_true, beq_iff_eq] at hpx
    exact h x hx hpx
  simp [get_movie, hf]

lemma update_movie_404 {mid : Nat} {mu : MovieUpdate} {u : User} {db : DB}
    (h : ∀ x ∈ db.movies, ¬(x.id = mid ∧ x.user_id = u.id)) :
    update_movie mid mu u db = (.error (.httpError 404 "Movie not found"), db) := by
  have hf : db.movies.find? (fun x => x.id == mid && x.user_id == u.id) = none := by
    apply List.find?_eq_none.mpr
    intro x hx hpx
    simp only [Bool.and_eq_true, beq_iff_eq] at hpx
    exact h x hx hpx
  simp [update_movie, hf]

lemma delete_movie_404 {mid : Nat} {u : User} {db : DB}
    (h : ∀ x ∈ db.movies, ¬(x.id = mid ∧ x.user_id = u.id)) :
    delete_movie mid u db = (.error (.httpError 404 "Movie not found"), db) := by
  simp only [delete_movie]
  have hf : db.movies.filter (fun x => !(x.id == mid && x.user_id == u.id)) = db.movies := by
    apply List.filter_eq_self.mpr
    intro x hx
    simpa using not_and_or.mp (h x hx)
  simp [hf]
  exact fun x hx h1 h2 => h x hx ⟨h1, h2⟩

lemma find?_append_none {α : Type} (p : α → Bool) (l1 l2 : List α)
    (h : l1.find? p = none) : (l1 ++ l2).find? p = l2.find? p := by
  induction l1 with
  | nil => rfl
  | cons x xs ih =>
    have hx : p x = false := by
      have := List.find?_eq_none.mp h x (List.mem_cons_self x xs)
      simpa using this
    have hxs : xs.find? p = none := by
      apply List.find?_eq_none.mpr
      intro y hy
      exact List.find?_eq_none.mp h y (List.mem_cons_of_mem x hy)
    rw [List.cons_append, List.find?_cons_of_neg _ (by simp [hx]), ih hxs]

lemma updateRows_mem_origin (fields : List SetField) (mid uid : Nat)
    (l l2 : List MovieRow) (h : updateRows fields mid uid l = .ok l2) :
    ∀ y ∈ l2, ∃ x ∈ l, y.id = x.id ∧ y.user_id = x.user_id := by
  induction l generalizing l2 with
  | nil =>
    rw [updateRows] at h
    cases h
    intro y hy
    cases hy
  | cons x xs ih =>
    rw [updateRows] at h
    cases happ : (if x.id == mid && x.user_id == uid then applyFields fields x else .ok x) with
    | error e => rw [happ] at h; cases h
    | ok x2 =>
      rw [happ] at h
      cases hrest : updateRows fields mid uid xs with
      | error e => rw [hrest] at h; cases h
      | ok xs2 =>
        rw [hrest] at h
        cases h
        intro y hy
        rcases List.mem_cons.mp hy with rfl | hy2
        · refine ⟨x, List.mem_cons_self x xs, ?_⟩
          split at happ
          · exact applyFields_id_user fields x y happ
          · cases happ
            exact ⟨rfl, rfl⟩
        · obtain ⟨x0, hx0, h1, h2⟩ := ih xs2 hrest y hy2
          exact ⟨x0, List.mem_cons_of_mem x hx0, h1, h2⟩

/-! ### Claim theorems -/

/-- C2: for every authenticated caller and movie id, whenever no row satisfies
the single combined predicate `id = ? AND user_id = ?` — both when no movie
with that id exists at all and when it exists but belongs to another user —
`get_movie`, `update_movie` and `delete_movie` each fail with the one
identical `404 "Movie not found"` and leave the store unchanged; the caller
cannot tell the two causes apart. -/
theorem notFound_uniform (mid : Nat) (mu : MovieUpdate) (u : User) (db : DB)
    (h : ∀ x ∈ db.movies, ¬(x.id = mid ∧ x.user_id = u.id)) :
    get_movie mid u db = (.error (.httpError 404 "Movie not found"), db) ∧
      update_movie mid mu u db = (.error (.httpError 404 "Movie not found"), db) ∧
      delete_movie mid u db = (.error (.httpError 404 "Movie not found"), db) :=
  ⟨get_movie_404 h, update_movie_404 h, delete_movie_404 h⟩

theorem notFound_uniform_witness :
    (∀ x ∈ db1.movies, ¬(x.id = 5 ∧ x.user_id = bob.id)) ∧
      (get_movie 5 bob db1 = (.error (.httpError 404 "Movie not found"), db1) ∧
        update_movie 5 muRating bob db1 = (.error (.httpError 404 "Movie not found"), db1) ∧
        delete_movie 5 bob db1 = (.error (.httpError 404 "Movie not found"), db1)) :=
  ⟨by decide, notFound_uniform 5 muRating bob db1 (by decide)⟩

/-- C1: ownership isolation.  A movie owned by user `a` is invisible to every
distinct user `b`: it is not in `b`'s list result, and `get_movie`,
`update_movie` and `delete_movie` called by `b` on its id fail with 404 and
return the store unchanged (so the movie is untouched). -/
theorem ownership_isolation (db : DB) (a b : User) (r : MovieRow) (mu : MovieUpdate)
    (hnd : (db.movies.map MovieRow.id).Nodup) (hr : r ∈ db.movies)
    (hown : r.user_id = a.id) (hab : b.id ≠ a.id) :
    get_movies b db = (.ok (db.movies.filter (fun x => x.user_id == b.id)), db) ∧
      r ∉ db.movies.filter (fun x => x.user_id == b.id) ∧
      get_movie r.id b db = (.error (.httpError 404 "Movie not found"), db) ∧
      update_movie r.id mu b db = (.error (.httpError 404 "Movie not found"), db) ∧
      delete_movie r.id b db = (.error (.httpError 404 "Movie not found"), db) := by
  have hforeign : r.user_id ≠ b.id := by
    rw [hown]
    exact fun he => hab he.symm
  have hno := no_match_of_foreign hnd hr hforeign
  refine ⟨rfl, ?_, get_movie_404 hno, update_movie_404 hno, delete_movie_404 hno⟩
  intro hm
  have := (List.mem_filter.mp hm).2
  simp only [beq_iff_eq] at this
  exact hforeign this

theorem ownership_isolation_witness :
    ((db1.movies.map MovieRow.id).Nodup ∧ movieDune ∈ db1.movies ∧
        movieDune.user_id = alice.id ∧ bob.id ≠ alice.id) ∧
      (get_movies bob db1 = (.ok (db1.movies.filter (fun x => x.user_id == bob.id)), db1) ∧
        movieDune ∉ db1.movies.filter (fun x => x.user_id == bob.id) ∧
        get_movie movieDune.id bob db1 = (.error (.httpError 404 "Movie not found"), db1) ∧
        update_movie movieDune.id muRating bob db1 =
          (.error (.httpError 404 "Movie not found"), db1) ∧
        delete_movie movieDune.id bob db1 = (.error (.httpError 404 "Movie not found"), db1)) :=
  ⟨⟨by decide, by decide, by decide, by decide⟩,
    ownership_isolation db1 alice bob movieDune muRating (by decide) (by decide)
      (by decide) (by decide)⟩

/-- C6: a login with an unknown handle and a login with a known handle but a
failing password verification produce the very same error value — status 401
with detail "Incorrect username or password" — so the response does not reveal
which check failed. -/
theorem login_error_indistinguishable (verify : String → String → Bool)
    (u1 p1 u2 p2 : String) (db : DB) (row : UserRow)
    (h1 : db.users.find? (fun x => x.username == u1) = none)
    (h2 : db.users.find? (fun x => x.username == u2) = some row)
    (h3 : verify p2 row.hashed_password = false) :
    login verify u1 p1 db = (.error (.httpError 401 "Incorrect username or password"), db) ∧
      login verify u2 p2 db = (.error (.httpError 401 "Incorrect username or password"), db) ∧
      (login verify u1 p1 db).1 = (login verify u2 p2 db).1 := by
  refine ⟨?_, ?_, ?_⟩ <;> simp [login, h1, h2, h3]

theorem login_error_indistinguishable_witness :
    (db1.users.find? (fun x => x.username == "carol") = none ∧
        db1.users.find? (fun x => x.username == "alice") = some ⟨1, "alice", "h1"⟩ ∧
        (fun _ _ => false : String → String → Bool) "pw" ("h1" : String) = false) ∧
      (login (fun _ _ => false) "carol" "pw" db1 =
          (.error (.httpError 401 "Incorrect username or password"), db1) ∧
        login (fun _ _ => false) "alice" "pw" db1 =
          (.error (.httpError 401 "Incorrect username or password"), db1) ∧
        (login (fun _ _ => false) "carol" "pw" db1).1 =
          (login (fun _ _ => false) "alice" "pw" db1).1) :=
  ⟨⟨by decide, by decide, rfl⟩,
    login_error_indistinguishable (fun _ _ => false) "carol" "pw" "alice" "pw" db1
      ⟨1, "alice", "h1"⟩ (by decide) (by decide) rfl⟩

/-- C10: an update whose title is explicitly null passes request validation
(there is no required field in `MovieUpdate`), reaches the generated SET
clause, and aborts inside the store on the `movies.title` NOT NULL
constraint: the handler surfaces an unhandled storage fault, not a domain
error, and the store — in particular the targeted row — is unchanged. -/
theorem update_null_title_storage_fault (db : DB) (u : User) (r : MovieRow)
    (mu : MovieUpdate) (hr : r ∈ db.movies) (hown : r.user_id = u.id)
    (htitle : mu.title = Field.null) :
    parseMovieUpdate mu = .ok mu ∧
      update_movie r.id mu u db =
        (.error (.storageFault "NOT NULL constraint failed: movies.title"), db) := by
  refine ⟨rfl, ?_⟩
  obtain ⟨rest, hp⟩ : ∃ rest, mu.presentFields = SetField.title none :: rest := by
    rcases mu with ⟨t, d, y, g, ra, de⟩
    cases htitle
    exact ⟨_, rfl⟩
  cases hfind : db.movies.find? (fun x => x.id == r.id && x.user_id == u.id) with
  | none =>
    have := List.find?_eq_none.mp hfind r hr
    simp [hown] at this
  | some r0 =>
    have hpr : (r.id == r.id && r.user_id == u.id) = true := by simp [hown]
    have hrows := updateRows_titleNull rest r.id u.id db.movies r hr hpr
    simp [update_movie, hfind, hp, hrows]

theorem update_null_title_storage_fault_witness :
    (movieDune ∈ db1.movies ∧ movieDune.user_id = alice.id ∧
        muTitleNull.title = Field.null) ∧
      (parseMovieUpdate muTitleNull = .ok muTitleNull ∧
        update_movie movieDune.id muTitleNull alice db1 =
          (.error (.storageFault "NOT NULL constraint failed: movies.title"), db1)) :=
  ⟨⟨by decide, by decide, by decide⟩,
    update_null_title_storage_fault db1 alice movieDune muTitleNull (by decide)
      (by decide) (by decide)⟩

/-- C9: once `register` has succeeded for a handle, a second `register` call
with the same handle fails with the 400 duplicate-handle Conflict, returns the
store (users table included) unchanged and carries no token; the successful
first registration returned a bearer token whose claim names the registered
handle. -/
theorem register_duplicate_conflict (hash : String → String) (un p1 p2 : String)
    (db : DB) (tok : Token) (hok : (register hash un p1 db).1 = .ok tok) :
    (register hash un p2 ((register hash un p1 db).2)).1 =
        .error (.httpError 400 "Username already registered") ∧
      (register hash un p2 ((register hash un p1 db).2)).2 = (register hash un p1 db).2 ∧
      tok.access_token = create_access_token un ∧ tok.access_token.sub = un := by
  cases hfind : db.users.find? (fun x => x.username == un) with
  | some u0 => simp [register, hfind] at hok
  | none =>
    have hfind2 : ((db.users ++
          [({ id := db.nextUserId, username := un, hashed_password := hash p1 } : UserRow)]).find?
        (fun x => x.username == un)) =
        some { id := db.nextUserId, username := un, hashed_password := hash p1 } := by
      rw [find?_append_none _ _ _ hfind]
      simp [List.find?]
    have htok : tok = ⟨create_access_token un, "bearer"⟩ := by
      simp [register, hfind] at hok
      exact hok.symm
    subst htok
    refine ⟨?_, ?_, rfl, rfl⟩ <;> simp [register, hfind, hfind2]

theorem register_duplicate_conflict_witness :
    ((register (fun s => s) "dave" "pw1" db0).1 =
        .ok ⟨create_access_token "dave", "bearer"⟩) ∧
      ((register (fun s => s) "dave" "pw2" ((register (fun s => s) "dave" "pw1" db0).2)).1 =
          .error (.httpError 400 "Username already registered") ∧
        (register (fun s => s) "dave" "pw2" ((register (fun s => s) "dave" "pw1" db0).2)).2 =
          (register (fun s => s) "dave" "pw1" db0).2 ∧
        (⟨create_access_token "dave", "bearer"⟩ : Token).access_token =
          create_access_token "dave" ∧
        (⟨create_access_token "dave", "bearer"⟩ : Token).access_token.sub = "dave") :=
  ⟨by decide,
    register_duplicate_conflict (fun s => s) "dave" "pw1" "pw2" db0
      ⟨create_access_token "dave", "bearer"⟩ (by decide)⟩

/-- C5: a protected operation invoked with a missing credential, or with a
token the decoder rejects (malformed, expired or tampered all map to the
decoder's `none` sentinel), fails with 401 Unauthorized; the store comes back
unchanged and the storage trace is empty, so no read or write of the users or
movies tables happens before the rejection — for every possible handler body,
hence for list, create, get, update and delete alike. -/
theorem auth_failure_before_storage {α : Type}
    (handler : User → DB → Except Err α × DB × List StorageOp)
    (decode : String → Option TokenData) (cred : Option String) (db : DB)
    (hbad : cred = none ∨ ∃ tok, cred = some tok ∧ decode tok = none) :
    ∃ detail, run_protected handler decode cred db =
      (.error (.httpError 401 detail), db, ([] : List StorageOp)) := by
  rcases hbad with rfl | ⟨tok, rfl, hdec⟩
  · exact ⟨"Not authenticated", rfl⟩
  · exact ⟨"Invalid authentication credentials",
      by simp [run_protected, get_current_user, hdec]⟩

theorem auth_failure_before_storage_witness :
    ((some "garbage" : Option String) = none ∨
        ∃ tok, (some "garbage" : Option String) = some tok ∧ decodeNone tok = none) ∧
      ∃ detail, run_protected tracedList decodeNone (some "garbage") db1 =
        (.error (.httpError 401 detail), db1, ([] : List StorageOp)) :=
  ⟨Or.inr ⟨"garbage", rfl, rfl⟩,
    auth_failure_before_storage tracedList decodeNone (some "garbage") db1
      (Or.inr ⟨"garbage", rfl, rfl⟩)⟩

/-- C7: round trip.  Creating a movie with all six fields supplied and then
calling `get_movie` on the returned id against the post-create store yields a
record whose six fields are exactly the submitted values, together with the
freshly assigned id and the caller's id as owner. -/
theorem create_get_round_trip (u : User) (t d g de : String) (y : Int) (ra : Rat)
    (db : DB) (hfresh : ∀ x ∈ db.movies, x.id < db.nextMovieId) :
    ∃ row, create_movie ⟨t, some d, some y, some g, some ra, some de⟩ u db =
        (.ok row, { db with movies := db.movies ++ [row], nextMovieId := db.nextMovieId + 1 }) ∧
      row = ⟨db.nextMovieId, t, some d, some y, some g, some ra, some de, u.id⟩ ∧
      get_movie row.id u (create_movie ⟨t, some d, some y, some g, some ra, some de⟩ u db).2 =
        (.ok row, (create_movie ⟨t, some d, some y, some g, some ra, some de⟩ u db).2) := by
  refine ⟨⟨db.nextMovieId, t, some d, some y, some g, some ra, some de, u.id⟩, rfl, rfl, ?_⟩
  have hnone : db.movies.find? (fun x => x.id == db.nextMovieId && x.user_id == u.id) = none := by
    apply List.find?_eq_none.mpr
    intro x hx
    have hlt := hfresh x hx
    simp only [Bool.and_eq_true, beq_iff_eq, not_and]
    intro h1
    omega
  simp [get_movie, create_movie, find?_append_none _ _ _ hnone, List.find?]

theorem create_get_round_trip_witness :
    (∀ x ∈ db1.movies, x.id < db1.nextMovieId) ∧
      ∃ row, create_movie movieFull alice db1 =
          (.ok row,
            { db1 with movies := db1.movies ++ [row], nextMovieId := db1.nextMovieId + 1 }) ∧
        row = ⟨db1.nextMovieId, "Dune", some "Villeneuve", some 2021, some "SciFi",
          some (8 : Rat), some "Arrakis", alice.id⟩ ∧
        get_movie row.id alice (create_movie movieFull alice db1).2 =
          (.ok row, (create_movie movieFull alice db1).2) :=
  ⟨by decide,
    create_get_round_trip alice "Dune" "Villeneuve" "SciFi" "Arrakis" 2021 (8 : Rat)
      db1 (by decide)⟩

/-- C4 counterexample: the claim quantifies over every update request, but at
a concrete owned movie an update whose title is explicitly null does not
return the post-update record — it aborts with the storage fault — so the
claim as stated fails for requests that set title to null. -/
theorem sparse_update_cex :
    (update_movie movieDune.id muTitleNull alice db1).1 =
        .error (.storageFault "NOT NULL constraint failed: movies.title") ∧
      (update_movie movieDune.id muTitleNull alice db1).2 = db1 := by
  constructor <;> rfl

/-- C4 (amended): for every movie owned by the caller and every update request
whose title field is not explicitly null, `update_movie` succeeds and returns
the post-update record; every field present in the request is written (value
or null), every absent field is left unchanged, the id and owner are
untouched, the store is the input store with just that row rewritten, and a
request with zero present fields is a no-op that still returns the current
record. -/
theorem sparse_update (db : DB) (u : User) (r : MovieRow) (mu : MovieUpdate)
    (hnd : (db.movies.map MovieRow.id).Nodup) (hr : r ∈ db.movies)
    (hown : r.user_id = u.id) (ht : mu.title ≠ Field.null) :
    ∃ r2, update_movie r.id mu u db =
        (.ok r2, { db with movies := db.movies.map (fun x => if x.id == r.id && x.user_id == u.id then r2 else x) }) ∧
      r2.id = r.id ∧ r2.user_id = r.user_id ∧
      (mu.title = .absent → r2.title = r.title) ∧
      (∀ v, mu.title = .val v → r2.title = v) ∧
      (mu.director = .absent → r2.director = r.director) ∧
      (mu.director = .null → r2.director = none) ∧
      (∀ v, mu.director = .val v → r2.director = some v) ∧
      (mu.year = .absent → r2.year = r.year) ∧
      (mu.year = .null → r2.year = none) ∧
      (∀ v, mu.year = .val v → r2.year = some v) ∧
      (mu.genre = .absent → r2.genre = r.genre) ∧
      (mu.genre = .null → r2.genre = none) ∧
      (∀ v, mu.genre = .val v → r2.genre = some v) ∧
      (mu.rating = .absent → r2.rating = r.rating) ∧
      (mu.rating = .null → r2.rating = none) ∧
      (∀ v, mu.rating = .val v → r2.rating = some v) ∧
      (mu.description = .absent → r2.description = r.description) ∧
      (mu.description = .null → r2.description = none) ∧
      (∀ v, mu.description = .val v → r2.description = some v) ∧
      (mu.presentFields = [] → update_movie r.id mu u db = (.ok r, db)) := by
  have hfind : db.movies.find? (fun x => x.id == r.id && x.user_id == u.id) = some r :=
    find?_owned hnd hr hown
  have hnotin := titleNone_not_mem_presentFields mu ht
  have hchar := applyList_presentFields mu r
  have hfind_id : db.movies.find? (fun x => x.id == r.id) = some r := by
    apply find?_eq_some_unique hr (by simp)
    intro x hx hpx
    exact row_eq_of_id_eq hnd hr hx (by simpa using hpx)
  have hnoop : mu.presentFields = [] → update_movie r.id mu u db = (.ok r, db) := by
    intro hnil
    simp [update_movie, hfind, hnil, hfind_id]
  have hmain : update_movie r.id mu u db =
      (.ok (applyList mu.presentFields r), { db with movies := db.movies.map (fun x => if x.id == r.id && x.user_id == u.id then applyList mu.presentFields r else x) }) := by
    by_cases hemp : mu.presentFields.isEmpty = true
    · have hnil : mu.presentFields = [] := List.isEmpty_iff.mp hemp
      rw [hnoop hnil, hnil]
      have hmapid : db.movies.map (fun x => if x.id == r.id && x.user_id == u.id
          then applyList [] r else x) = db.movies := by
        have hcong : ∀ x ∈ db.movies, (if x.id == r.id && x.user_id == u.id
            then applyList [] r else x) = x := by
          intro x hx
          by_cases hp : (x.id == r.id && x.user_id == u.id) = true
          · have hp2 : x.id = r.id ∧ x.user_id = u.id := by simpa using hp
            have hxr : x = r := row_eq_of_id_eq hnd hr hx hp2.1
            rw [if_pos hp, hxr]
            rfl
          · rw [if_neg hp]
        rw [List.map_congr_left hcong]
        simp
      rw [hmapid]
      rfl
    · have hempf : mu.presentFields.isEmpty = false := by
        cases hval : mu.presentFields.isEmpty
        · rfl
        · exact absurd hval hemp
      have hrows := updateRows_eq_map mu.presentFields r.id u.id db.movies hnotin
      have hmemg : applyList mu.presentFields r ∈
          db.movies.map (fun x => if x.id == r.id && x.user_id == u.id
            then applyList mu.presentFields x else x) := by
        have hgr : (fun x => if x.id == r.id && x.user_id == u.id
            then applyList mu.presentFields x else x) r = applyList mu.presentFields r := by
          simp [hown]
        exact hgr ▸ List.mem_map_of_mem _ hr
      have hid2 : (applyList mu.presentFields r).id = r.id := by rw [hchar]
      have hfind3 : (db.movies.map (fun x => if x.id == r.id && x.user_id == u.id
            then applyList mu.presentFields x else x)).find? (fun x => x.id == r.id) =
          some (applyList mu.presentFields r) := by
        apply find?_eq_some_unique hmemg (by simp [hid2])
        intro y hy hpy
        obtain ⟨x, hx, hyx⟩ := List.mem_map.mp hy
        by_cases hp : (x.id == r.id && x.user_id == u.id) = true
        · have hp2 : x.id = r.id ∧ x.user_id = u.id := by simpa using hp
          have hxr : x = r := row_eq_of_id_eq hnd hr hx hp2.1
          subst hyx
          simp [hxr, hown]
        · exfalso
          subst hyx
          simp only [hp, if_false, Bool.false_eq_true] at hpy
          have hxid : x.id = r.id := by simpa using hpy
          have hxr : x = r := row_eq_of_id_eq hnd hr hx hxid
          exact hp (by simp [hxr, hown])
      have hmap2 : db.movies.map (fun x => if x.id == r.id && x.user_id == u.id
            then applyList mu.presentFields x else x) =
          db.movies.map (fun x => if x.id == r.id && x.user_id == u.id
            then applyList mu.presentFields r else x) := by
        apply List.map_congr_left
        intro x hx
        by_cases hp : (x.id == r.id && x.user_id == u.id) = true
        · have hp2 : x.id = r.id ∧ x.user_id = u.id := by simpa using hp
          have hxr : x = r := row_eq_of_id_eq hnd hr hx hp2.1
          simp only [hxr]
        · simp only [hp, if_false, Bool.false_eq_true]
      rw [← hmap2]
      simp only [update_movie, hfind, hempf, Bool.false_eq_true, if_false, hrows, hfind3]
  refine ⟨applyList mu.presentFields r, hmain, ?_, ?_, ?_, ?_, ?_, ?_, ?_, ?_, ?_, ?_, ?_,
    ?_, ?_, ?_, ?_, ?_, ?_, ?_, ?_, hnoop⟩
  · rw [hchar]
  · rw [hchar]
  · intro h; simp [hchar, h, updTitle, updOpt]
  · intro v h; simp [hchar, h, updTitle, updOpt]
  · intro h; simp [hchar, h, updTitle, updOpt]
  · intro h; simp [hchar, h, updTitle, updOpt]
  · intro v h; simp [hchar, h, updTitle, updOpt]
  · intro h; simp [hchar, h, updTitle, updOpt]
  · intro h; simp [hchar, h, updTitle, updOpt]
  · intro v h; simp [hchar, h, updTitle, updOpt]
  · intro h; simp [hchar, h, updTitle, updOpt]
  · intro h; simp [hchar, h, updTitle, updOpt]
  · intro v h; simp [hchar, h, updTitle, updOpt]
  · intro h; simp [hchar, h, updTitle, updOpt]
  · intro h; simp [hchar, h, updTitle, updOpt]
  · intro v h; simp [hchar, h, updTitle, updOpt]
  · intro h; simp [hchar, h, updTitle, updOpt]
  · intro h; simp [hchar, h, updTitle, updOpt]
  · intro v h; simp [hchar, h, updTitle, updOpt]

theorem sparse_update_witness :
    ((db1.movies.map MovieRow.id).Nodup ∧ movieDune ∈ db1.movies ∧
        movieDune.user_id = alice.id ∧ muRating.title ≠ Field.null) ∧
      ∃ r2, update_movie movieDune.id muRating alice db1 =
          (.ok r2, { db1 with movies := db1.movies.map (fun x => if x.id == movieDune.id && x.user_id == alice.id then r2 else x) }) ∧
        r2.id = movieDune.id ∧ r2.user_id = movieDune.user_id ∧
        (muRating.title = .absent → r2.title = movieDune.title) ∧
        (∀ v, muRating.title = .val v → r2.title = v) ∧
        (muRating.director = .absent → r2.director = movieDune.director) ∧
        (muRating.director = .null → r2.director = none) ∧
        (∀ v, muRating.director = .val v → r2.director = some v) ∧
        (muRating.year = .absent → r2.year = movieDune.year) ∧
        (muRating.year = .null → r2.year = none) ∧
        (∀ v, muRating.year = .val v → r2.year = some v) ∧
        (muRating.genre = .absent → r2.genre = movieDune.genre) ∧
        (muRating.genre = .null → r2.genre = none) ∧
        (∀ v, muRating.genre = .val v → r2.genre = some v) ∧
        (muRating.rating = .absent → r2.rating = movieDune.rating) ∧
        (muRating.rating = .null → r2.rating = none) ∧
        (∀ v, muRating.rating = .val v → r2.rating = some v) ∧
        (muRating.description = .absent → r2.description = movieDune.description) ∧
        (muRating.description = .null → r2.description = none) ∧
        (∀ v, muRating.description = .val v → r2.description = some v) ∧
        (muRating.presentFields = [] →
          update_movie movieDune.id muRating alice db1 = (.ok movieDune, db1)) :=
  ⟨⟨by decide, by decide, by decide, by decide⟩,
    sparse_update db1 alice movieDune muRating (by decide) (by decide) (by decide)
      (by decide)⟩

/-- C3 counterexample: a create request whose title is present but equal to
the empty string is not rejected — pydantic `title: str` has no non-empty
constraint — and a movie record with the empty title is created, refuting the
empty-string half of the claim. -/
theorem create_empty_title_cex :
    (create_movie_endpoint rawEmptyTitle alice db0).1 =
        .ok ⟨1, "", none, none, none, none, none, 1⟩ ∧
      (create_movie_endpoint rawEmptyTitle alice db0).2.movies =
        [⟨1, "", none, none, none, none, none, 1⟩] := by
  constructor <;> rfl

/-- C3 (amended): `create_movie` rejects a request whose title is absent or
explicitly null as a request-validation failure with no record created; a
request whose title is present — including the empty string — with every
other field absent or null is accepted and creates exactly one record
carrying the submitted title and `None` for the omitted fields. -/
theorem create_title_validation (raw raw2 : RawMovieCreate) (u : User) (db db2 : DB)
    (s : String) (hbad : raw.title = .absent ∨ raw.title = .null)
    (hgood : raw2.title = .val s)
    (hdir : raw2.director = .absent ∨ raw2.director = .null)
    (hyear : raw2.year = .absent ∨ raw2.year = .null)
    (hgenre : raw2.genre = .absent ∨ raw2.genre = .null)
    (hrating : raw2.rating = .absent ∨ raw2.rating = .null)
    (hdesc : raw2.description = .absent ∨ raw2.description = .null) :
    (∃ msg, create_movie_endpoint raw u db = (.error (.validationError msg), db)) ∧
      create_movie_endpoint raw2 u db2 =
        (.ok ⟨db2.nextMovieId, s, none, none, none, none, none, u.id⟩,
          { db2 with movies := db2.movies ++ [⟨db2.nextMovieId, s, none, none, none, none, none, u.id⟩], nextMovieId := db2.nextMovieId + 1 }) := by
  constructor
  · rcases hbad with h | h
    · exact ⟨"title: Field required",
        by simp [create_movie_endpoint, parseMovieCreate, h]⟩
    · exact ⟨"title: Input should be a valid string",
        by simp [create_movie_endpoint, parseMovieCreate, h]⟩
  · have hd : parseField raw2.director = none := by
      rcases hdir with h | h <;> simp [parseField, h]
    have hy : parseField raw2.year = none := by
      rcases hyear with h | h <;> simp [parseField, h]
    have hg : parseField raw2.genre = none := by
      rcases hgenre with h | h <;> simp [parseField, h]
    have hra : parseField raw2.rating = none := by
      rcases hrating with h | h <;> simp [parseField, h]
    have hde : parseField raw2.description = none := by
      rcases hdesc with h | h <;> simp [parseField, h]
    simp [create_movie_endpoint, parseMovieCreate, hgood, hd, hy, hg, hra, hde, create_movie]

theorem create_title_validation_witness :
    (rawNoTitle.title = Field.absent ∨ rawNoTitle.title = Field.null) ∧
      (rawTitleOnly.title = Field.val "Alien") ∧
      ((∃ msg, create_movie_endpoint rawNoTitle alice db0 =
          (.error (.validationError msg), db0)) ∧
        create_movie_endpoint rawTitleOnly alice db0 =
          (.ok ⟨db0.nextMovieId, "Alien", none, none, none, none, none, alice.id⟩,
            { db0 with movies := db0.movies ++ [⟨db0.nextMovieId, "Alien", none, none, none, none, none, alice.id⟩], nextMovieId := db0.nextMovieId + 1 })) :=
  ⟨Or.inl (by decide), by decide,
    create_title_validation rawNoTitle rawTitleOnly alice db0 db0 "Alien"
      (Or.inl (by decide)) (by decide) (Or.inr (by decide)) (Or.inl (by decide))
      (Or.inr (by decide)) (Or.inl (by decide)) (Or.inr (by decide))⟩

/-- C8: owner immutability.  `create_movie` returns a record whose `user_id`
is the creating caller's id, and the only new row it adds carries that owner;
`update_movie` — whose request shape `MovieUpdate` has no owner field — maps
every row of the resulting store to a row of the input store with the same id
and the same `user_id`; `delete_movie` only ever removes rows; `get_movie`
and `get_movies` return the store unchanged.  So a movie's owner is fixed at
creation and no operation rewrites it. -/
theorem owner_immutable (m : MovieCreate) (mid : Nat) (mu : MovieUpdate) (u : User)
    (db : DB) (r2 : MovieRow) (hmem : r2 ∈ ((update_movie mid mu u db).2).movies) :
    ((create_movie m u db).1 =
        .ok ⟨db.nextMovieId, m.title, m.director, m.year, m.genre, m.rating, m.description, u.id⟩ ∧
      (∀ x ∈ ((create_movie m u db).2).movies, x ∈ db.movies ∨ x.user_id = u.id)) ∧
      (∃ x ∈ db.movies, r2.id = x.id ∧ r2.user_id = x.user_id) ∧
      (∀ x ∈ ((delete_movie mid u db).2).movies, x ∈ db.movies) ∧
      (get_movie mid u db).2 = db ∧ (get_movies u db).2 = db := by
  refine ⟨⟨rfl, ?_⟩, ?_, ?_, ?_, rfl⟩
  · intro x hx
    simp only [create_movie, List.mem_append, List.mem_singleton] at hx
    rcases hx with hx | hx
    · exact Or.inl hx
    · exact Or.inr (by rw [hx])
  · cases hfind : db.movies.find? (fun x => x.id == mid && x.user_id == u.id) with
    | none =>
      rw [update_movie, hfind] at hmem
      exact ⟨r2, hmem, rfl, rfl⟩
    | some r0 =>
      rw [update_movie, hfind] at hmem
      by_cases hemp : mu.presentFields.isEmpty = true
      · simp only [hemp, if_true] at hmem
        cases hfind2 : db.movies.find? (fun x => x.id == mid) <;>
          · rw [hfind2] at hmem
            exact ⟨r2, hmem, rfl, rfl⟩
      · have hempf : mu.presentFields.isEmpty = false := by
          cases hval : mu.presentFields.isEmpty
          · rfl
          · exact absurd hval hemp
        simp only [hempf, Bool.false_eq_true, if_false] at hmem
        cases hrows : updateRows mu.presentFields mid u.id db.movies with
        | error e =>
          rw [hrows] at hmem
          exact ⟨r2, hmem, rfl, rfl⟩
        | ok l2 =>
          simp only [hrows] at hmem
          have horigin := updateRows_mem_origin mu.presentFields mid u.id db.movies l2 hrows
          cases hfind2 : l2.find? (fun x => x.id == mid) <;>
            · simp only [hfind2] at hmem
              obtain ⟨x, hx, h1, h2⟩ := horigin r2 hmem
              exact ⟨x, hx, h1, h2⟩
  · intro x hx
    rw [delete_movie] at hx
    by_cases hlen : ((db.movies.filter (fun y => !(y.id == mid && y.user_id == u.id))).length == db.movies.length) = true
    · simp only [hlen, if_true] at hx
      exact hx
    · have hlenf : ((db.movies.filter (fun y => !(y.id == mid && y.user_id == u.id))).length == db.movies.length) = false := by
        cases hval : ((db.movies.filter (fun y => !(y.id == mid && y.user_id == u.id))).length == db.movies.length)
        · rfl
        · exact absurd hval hlen
      simp only [hlenf, Bool.false_eq_true, if_false] at hx
      exact (List.mem_filter.mp hx).1
  · rw [get_movie]
    cases hfind : db.movies.find? (fun x => x.id == mid && x.user_id == u.id) <;> rfl

theorem owner_immutable_witness :
    ((⟨1, "Dune", none, none, none, some (9 : Rat), none, 1⟩ : MovieRow) ∈
        ((update_movie movieDune.id muRating alice db1).2).movies) ∧
      (((create_movie movieFull alice db1).1 =
          .ok ⟨db1.nextMovieId, movieFull.title, movieFull.director, movieFull.year, movieFull.genre, movieFull.rating, movieFull.description, alice.id⟩ ∧
        (∀ x ∈ ((create_movie movieFull alice db1).2).movies,
          x ∈ db1.movies ∨ x.user_id = alice.id)) ∧
        (∃ x ∈ db1.movies,
          (⟨1, "Dune", none, none, none, some (9 : Rat), none, 1⟩ : MovieRow).id = x.id ∧
          (⟨1, "Dune", none, none, none, some (9 : Rat), none, 1⟩ : MovieRow).user_id = x.user_id) ∧
        (∀ x ∈ ((delete_movie movieDune.id alice db1).2).movies, x ∈ db1.movies) ∧
        (get_movie movieDune.id alice db1).2 = db1 ∧ (get_movies alice db1).2 = db1) :=
  ⟨by decide, owner_immutable movieFull movieDune.id muRating alice db1
    ⟨1, "Dune", none, none, none, some (9 : Rat), none, 1⟩ (by decide)⟩

end MoviesApi
